import Mathlib

/-!
Verification of the user-management backend (`user_repository.rs`, `user.rs`).

The Rust code is shallowly embedded: the Postgres table becomes an in-memory
list of rows, diesel queries become list operations, bcrypt is modelled by an
executable salted hash (the salt, chosen internally at random by bcrypt, is an
explicit parameter), the JWT encoder is a function parameter (the `jsonwebtoken`
crate is external), and every `unwrap`/`expect` that can abort becomes an
explicit `Outcome.panic` carrying the panic site.
-/

/-- `diesel::result::Error`: only the `NotFound` variant is reachable in the
in-memory semantics (other variants are connection/constraint failures of the
external database). -/
inductive DbError where
  | notFound
deriving DecidableEq

/-- A row of the `user` relation, as selected by `(id, pseudo, email, password_hash, role)`. -/
structure UserObject where
  id : Int
  pseudo : Option String
  email : Option String
  password_hash : Option String
  role : Option String
deriving DecidableEq

/-- Insertable user data (no `id`). -/
structure NewUserObject where
  pseudo : Option String
  email : Option String
  password_hash : Option String
  role : Option String
deriving DecidableEq

/-- JWT claims built in `login`. -/
structure Claims where
  sub : String
  exp : Nat
deriving DecidableEq

/-- The `user` table plus the generator backing the `id` column. -/
structure DB where
  rows : List UserObject
  nextId : Int
deriving DecidableEq

/-- Result of running Rust code that may abort: either a value or a panic
(with the panic site, since Rust panics report file and line). -/
inductive Outcome (α : Type) where
  | ok (a : α)
  | panic (msg : String)
deriving DecidableEq

/-- Model of bcrypt's random salt component: depends only on `salt % 16` and
never contains the `$` separator. -/
def saltTag (salt : Nat) : String :=
  String.mk (List.replicate (salt % 16) 's')

/-- Model of `bcrypt::hash(plain, DEFAULT_COST)` with explicit salt: a tagged,
salted, plaintext-injective string. -/
def bcryptHash (salt : Nat) (plain : String) : String :=
  "$2b$12$" ++ saltTag salt ++ "$" ++ plain

/-- Model of `bcrypt::verify(plain, h)`: `h` is a hash of `plain` under some salt. -/
def bcryptVerify (plain h : String) : Bool :=
  (List.range 16).any (fun s => h == bcryptHash s plain)

/-- The exact string literal passed to `env::var` in `login`
(`user_repository.rs:117-120`): a newline and eight spaces precede `JWT_SECRET`. -/
def jwtSecretName : String :=
  "\n        JWT_SECRET"

/-- `create_user` (`user_repository.rs:20-46`): unwraps `password_hash`
(panicking when absent), bcrypt-hashes it, inserts the row and returns it with
the generated id. -/
def create_user (db : DB) (salt : Nat) (new_user : NewUserObject) :
    Outcome (Except DbError UserObject × DB) :=
  match new_user.password_hash with
  | none => .panic "user_repository.rs:25: unwrap on None"
  | some plain =>
    let hashed := bcryptHash salt plain
    let row : UserObject :=
      { id := db.nextId, pseudo := new_user.pseudo, email := new_user.email,
        password_hash := some hashed, role := new_user.role }
    .ok (.ok row, { rows := db.rows ++ [row], nextId := db.nextId + 1 })

/-- `get_user_by_id` (`user_repository.rs:48-60`): `first` over
`filter(id.eq(user_id))`; `NotFound` when no row matches. -/
def get_user_by_id (db : DB) (user_id : Int) : Except DbError UserObject :=
  match db.rows.find? (fun r => r.id == user_id) with
  | some u => .ok u
  | none => .error .notFound

/-- `get_all_users` (`user_repository.rs:62-73`). -/
def get_all_users (db : DB) : Except DbError (List UserObject) :=
  .ok db.rows

/-- `delete_user` (`user_repository.rs:75-84`): deletes matching rows and
returns the count deleted. -/
def delete_user (db : DB) (user_id : Int) : Except DbError Nat × DB :=
  (.ok (db.rows.countP (fun r => r.id == user_id)),
   { rows := db.rows.filter (fun r => !(r.id == user_id)), nextId := db.nextId })

/-- The column overwrite performed by `update_user`'s `set` clause. -/
def overwriteRow (u : UserObject) (hashed : String) (r : UserObject) : UserObject :=
  if r.id == u.id then
    { r with pseudo := u.pseudo, email := u.email,
             password_hash := some hashed, role := u.role }
  else r

/-- `update_user` (`user_repository.rs:86-110`): unwraps `password_hash`
(panicking when absent), re-hashes it unconditionally, overwrites all editable
columns of the rows keyed by `id`, and returns the updated record, or
`NotFound` when no row matched (diesel `get_result` on an empty `RETURNING`). -/
def update_user (db : DB) (salt : Nat) (user_object : UserObject) :
    Outcome (Except DbError UserObject × DB) :=
  match user_object.password_hash with
  | none => .panic "user_repository.rs:91: unwrap on None"
  | some plain =>
    let hashed := bcryptHash salt plain
    if db.rows.any (fun r => r.id == user_object.id) then
      .ok (.ok { id := user_object.id, pseudo := user_object.pseudo,
                 email := user_object.email, password_hash := some hashed,
                 role := user_object.role },
           { rows := db.rows.map (overwriteRow user_object hashed), nextId := db.nextId })
    else
      .ok (.error .notFound, db)

/-- `login` (`user_repository.rs:112-151`): reads the (mangled) secret name
from the environment with `expect`, looks the user up by email (`first` over
`filter(email.eq(p_email))`, so a row with a NULL email never matches), unwraps
the stored `password_hash`, bcrypt-verifies, and on success unwraps the email
into the claims and signs; a signing failure is mapped to `Error::NotFound`.
`enc` is the external `jsonwebtoken::encode`. -/
def login (enc : Claims → String → Except Unit String) (env : String → Option String)
    (db : DB) (p_email p_password : String) : Outcome (Except DbError String) :=
  match env jwtSecretName with
  | none => .panic "JWT_SECRET must be set"
  | some secret_key =>
    match db.rows.find? (fun r => r.email == some p_email) with
    | none => .ok (.error .notFound)
    | some user_object =>
      match user_object.password_hash with
      | none => .panic "user_repository.rs:130: unwrap on None"
      | some stored =>
        if bcryptVerify p_password stored then
          match user_object.email with
          | none => .panic "user_repository.rs:134: unwrap on None"
          | some em =>
            match enc { sub := em, exp := 10000000000 } secret_key with
            | .error _ => .ok (.error .notFound)
            | .ok token => .ok (.ok token)
        else
          .ok (.error .notFound)

/-- The repository operation a handler invokes (via the pass-through service). -/
inductive RepoCall where
  | create
  | getById
  | getAll
  | delete
  | update
deriving DecidableEq

/-- JSON response bodies produced by the handlers. -/
inductive Body where
  | user (u : UserObject)
  | users (l : List UserObject)
  | msg (s : String)
deriving DecidableEq

/-- An HTTP response: status code and JSON body. -/
structure Response where
  status : Nat
  body : Body
deriving DecidableEq

/-- `get_user_handler` (`user.rs:40-50`): one repository call;
Ok maps to 200 with the user, Err to 404. -/
def get_user_handler (db : DB) (user_id : Int) :
    Outcome (Response × DB × List RepoCall) :=
  match get_user_by_id db user_id with
  | .ok u => .ok ({ status := 200, body := .user u }, db, [.getById])
  | .error _ => .ok ({ status := 404, body := .msg "User not found!" }, db, [.getById])

/-- `create_user_handler` (`user.rs:62-72`): one repository call;
Ok maps to 200 with the created user, Err to 500. -/
def create_user_handler (db : DB) (salt : Nat) (query : NewUserObject) :
    Outcome (Response × DB × List RepoCall) :=
  match create_user db salt query with
  | .panic m => .panic m
  | .ok (.ok u, db') => .ok ({ status := 200, body := .user u }, db', [.create])
  | .ok (.error _, db') =>
    .ok ({ status := 500, body := .msg "Failed to create user!" }, db', [.create])

/-- `list_users_handler` (`user.rs:83-90`): one repository call;
Ok maps to 200 with the list, Err to 500. -/
def list_users_handler (db : DB) : Outcome (Response × DB × List RepoCall) :=
  match get_all_users db with
  | .ok us => .ok ({ status := 200, body := .users us }, db, [.getAll])
  | .error _ => .ok ({ status := 500, body := .msg "Failed to get users!" }, db, [.getAll])

/-- `delete_user_handler` (`user.rs:104-114`): one repository call;
Ok maps to 200, Err to 500. -/
def delete_user_handler (db : DB) (user_id : Int) :
    Outcome (Response × DB × List RepoCall) :=
  match delete_user db user_id with
  | (.ok _, db') => .ok ({ status := 200, body := .msg "User deleted!" }, db', [.delete])
  | (.error _, db') =>
    .ok ({ status := 500, body := .msg "Failed to delete user!" }, db', [.delete])

/-- The merge of supplied fields performed by `update_user_handler`. -/
def mergeUser (u : UserObject) (query : NewUserObject) : UserObject :=
  { id := u.id,
    pseudo := match query.pseudo with | some p => some p | none => u.pseudo,
    email := match query.email with | some e => some e | none => u.email,
    password_hash := match query.password_hash with | some p => some p | none => u.password_hash,
    role := match query.role with | some r => some r | none => u.role }

/-- `update_user_handler` (`user.rs:129-156`): fetches the existing record with
`unwrap` (panicking when the id does not exist), merges supplied fields, then
calls `update_user`; two repository calls on the non-panicking path. -/
def update_user_handler (db : DB) (salt : Nat) (user_id : Int) (query : NewUserObject) :
    Outcome (Response × DB × List RepoCall) :=
  match get_user_by_id db user_id with
  | .error _ => .panic "user.rs:135: unwrap on Err"
  | .ok u =>
    match update_user db salt (mergeUser u query) with
    | .panic m => .panic m
    | .ok (.ok u2, db') => .ok ({ status := 200, body := .user u2 }, db', [.getById, .update])
    | .ok (.error _, db') =>
      .ok ({ status := 500, body := .msg "Failed to update user!" }, db', [.getById, .update])

deriving instance DecidableEq for Except

/-- A concrete JWT encoder used in witnesses. -/
def encodeModel (c : Claims) (secret : String) : Except Unit String :=
  .ok ("jwt." ++ c.sub ++ "." ++ secret)

/-- A concrete always-failing JWT encoder used in witnesses. -/
def encFail : Claims → String → Except Unit String :=
  fun _ _ => .error ()

/-- The empty database. -/
def dbEmpty : DB := { rows := [], nextId := 1 }

/-- A stored user whose password `hunter2` was hashed at creation. -/
def row1 : UserObject :=
  { id := 1, pseudo := some "bob", email := some "bob@example.com",
    password_hash := some (bcryptHash 0 "hunter2"), role := some "user" }

/-- A one-user database. -/
def db1 : DB := { rows := [row1], nextId := 2 }

/-- A stored user with a NULL `password_hash`. -/
def rowNoPwd : UserObject :=
  { id := 1, pseudo := none, email := some "eve@example.com",
    password_hash := none, role := none }

/-- A one-user database whose user has no stored password hash. -/
def dbNoPwd : DB := { rows := [rowNoPwd], nextId := 2 }

/-- An update payload for `row1` carrying a fresh plaintext password. -/
def uUpd : UserObject :=
  { id := 1, pseudo := some "bob2", email := some "bob2@example.com",
    password_hash := some "newpw", role := some "admin" }

/-- A valid creation request (the concrete scenario of the specification). -/
def nu1 : NewUserObject :=
  { pseudo := some "alice", email := some "a@x.com",
    password_hash := some "secret123", role := some "user" }

/-- A creation request with no password supplied. -/
def nuNoPwd : NewUserObject :=
  { pseudo := some "alice", email := some "a@x.com",
    password_hash := none, role := some "user" }

/-- An environment where the mangled name actually used by `login` is set. -/
def envBroken : String → Option String :=
  fun n => if n = jwtSecretName then some "topsecret" else none

/-- An environment where exactly `JWT_SECRET` is set, as an operator would set it. -/
def envJwtOnly : String → Option String :=
  fun n => if n = "JWT_SECRET" then some "topsecret" else none

/-- A stored user whose email column is NULL but whose password hash is set. -/
def rowNullEmail : UserObject :=
  { id := 3, pseudo := some "carol", email := none,
    password_hash := some (bcryptHash 0 "pw"), role := some "user" }

/-- A one-user database whose user has a NULL email. -/
def dbNullEmail : DB := { rows := [rowNullEmail], nextId := 4 }

/-! ### Properties of the bcrypt model -/

lemma saltTag_data (s : Nat) : (saltTag s).data = List.replicate (s % 16) 's' := rfl

lemma saltTag_no_sep (s : Nat) : ∀ c ∈ (saltTag s).data, c ≠ '$' := by
  intro c hc
  rw [saltTag_data] at hc
  rw [List.eq_of_mem_replicate hc]
  decide

lemma bcryptHash_data (s : Nat) (p : String) :
    (bcryptHash s p).data =
      '$' :: '2' :: 'b' :: '$' :: '1' :: '2' :: '$' ::
        ((saltTag s).data ++ '$' :: p.data) := by
  simp [bcryptHash, String.data_append]

lemma append_sep_inj (a1 : List Char) : ∀ (a2 b1 b2 : List Char),
    (∀ c ∈ a1, c ≠ '$') → (∀ c ∈ a2, c ≠ '$') →
    a1 ++ '$' :: b1 = a2 ++ '$' :: b2 → a1 = a2 ∧ b1 = b2 := by
  induction a1 with
  | nil =>
    intro a2 b1 b2 _ h2 heq
    cases a2 with
    | nil => simpa using heq
    | cons c2 t2 =>
      simp only [List.nil_append, List.cons_append] at heq
      injection heq with hc _
      exact absurd hc.symm (h2 c2 (by simp))
  | cons c t ih =>
    intro a2 b1 b2 h1 h2 heq
    cases a2 with
    | nil =>
      simp only [List.cons_append, List.nil_append] at heq
      injection heq with hc _
      exact absurd hc (h1 c (by simp))
    | cons c2 t2 =>
      simp only [List.cons_append] at heq
      injection heq with hc ht
      subst hc
      obtain ⟨ha, hb⟩ := ih t2 b1 b2 (fun x hx => h1 x (by simp [hx]))
        (fun x hx => h2 x (by simp [hx])) ht
      exact ⟨by rw [ha], hb⟩

/-- Two bcrypt hashes agree only when the hashed plaintexts agree. -/
lemma bcryptHash_inj {s1 s2 : Nat} {p1 p2 : String}
    (h : bcryptHash s1 p1 = bcryptHash s2 p2) : p1 = p2 := by
  have hd := congrArg String.data h
  rw [bcryptHash_data, bcryptHash_data] at hd
  simp only [List.cons.injEq, true_and] at hd
  obtain ⟨-, hb⟩ :=
    append_sep_inj _ _ _ _ (saltTag_no_sep s1) (saltTag_no_sep s2) hd
  exact String.ext hb

/-- The hash output is never the plaintext itself (it is strictly longer). -/
lemma bcryptHash_ne_plain (s : Nat) (p : String) : bcryptHash s p ≠ p := by
  intro h
  have hd := congrArg (fun q => q.data.length) h
  simp only [bcryptHash_data, List.length_cons, List.length_append,
    List.length_cons] at hd
  omega

/-- `verify` accepts the hash of the right password under any salt. -/
lemma bcryptVerify_complete (s : Nat) (p : String) :
    bcryptVerify p (bcryptHash s p) = true := by
  rw [bcryptVerify, List.any_eq_true]
  refine ⟨s % 16, List.mem_range.mpr (Nat.mod_lt _ (by decide)), ?_⟩
  rw [beq_iff_eq]
  simp [bcryptHash, saltTag, Nat.mod_mod_of_dvd s dvd_rfl]

/-- `verify` accepts nothing but the hashed password. -/
lemma bcryptVerify_sound {attempt p : String} {s : Nat}
    (h : bcryptVerify attempt (bcryptHash s p) = true) : attempt = p := by
  rw [bcryptVerify, List.any_eq_true] at h
  obtain ⟨s', -, hbeq⟩ := h
  exact bcryptHash_inj (eq_of_beq hbeq).symm

/-- A wrong password is rejected by `verify` against the stored hash. -/
lemma bcryptVerify_wrong {attempt p : String} {s : Nat} (hne : attempt ≠ p) :
    bcryptVerify attempt (bcryptHash s p) = false := by
  cases hv : bcryptVerify attempt (bcryptHash s p) with
  | false => rfl
  | true => exact absurd (bcryptVerify_sound hv) hne

/-! ### Claim theorems -/

/-- C1: the claim says `login` reads the environment variable named exactly
`JWT_SECRET` and proceeds to the lookup when it is present. The code instead
looks up a name with a leading newline and eight spaces, so with `JWT_SECRET`
itself set (and nothing else) `login` still aborts with
"JWT_SECRET must be set". -/
theorem login_env_name_bug :
    jwtSecretName ≠ "JWT_SECRET" ∧
    login encodeModel envJwtOnly db1 "bob@example.com" "hunter2" =
      .panic "JWT_SECRET must be set" := by
  exact ⟨by decide, rfl⟩

/-- C2: with a supplied plaintext password, `create_user` stores and returns a
record whose `password_hash` is the bcrypt hash of the plaintext, which differs
from the plaintext; the appended row is the only change to the table. -/
theorem create_user_stores_hash_not_plaintext
    (db : DB) (salt : Nat) (nu : NewUserObject) (p : String)
    (hp : nu.password_hash = some p) :
    create_user db salt nu =
      .ok (.ok { id := db.nextId, pseudo := nu.pseudo, email := nu.email,
                 password_hash := some (bcryptHash salt p), role := nu.role },
           { rows := db.rows ++
               [{ id := db.nextId, pseudo := nu.pseudo, email := nu.email,
                  password_hash := some (bcryptHash salt p), role := nu.role }],
             nextId := db.nextId + 1 }) ∧
    bcryptHash salt p ≠ p := by
  refine ⟨?_, bcryptHash_ne_plain salt p⟩
  simp [create_user, hp]

/-- Witness for C2 at the specification's concrete scenario. -/
theorem create_user_stores_hash_not_plaintext_witness :
    create_user dbEmpty 0 nu1 =
      .ok (.ok { id := 1, pseudo := some "alice", email := some "a@x.com",
                 password_hash := some (bcryptHash 0 "secret123"), role := some "user" },
           { rows := [{ id := 1, pseudo := some "alice", email := some "a@x.com",
                        password_hash := some (bcryptHash 0 "secret123"),
                        role := some "user" }],
             nextId := 2 }) ∧
    bcryptHash 0 "secret123" ≠ "secret123" :=
  create_user_stores_hash_not_plaintext dbEmpty 0 nu1 "secret123" rfl

/-- C5: when the id does not exist, `update_user_handler` panics at the
`unwrap` of the fetch result instead of returning a structured response. -/
theorem update_handler_crashes_on_missing_id
    (db : DB) (salt : Nat) (user_id : Int) (q : NewUserObject)
    (h : get_user_by_id db user_id = .error .notFound) :
    update_user_handler db salt user_id q = .panic "user.rs:135: unwrap on Err" := by
  simp [update_user_handler, h]

/-- Witness for C5: updating id 7 in the empty database crashes. -/
theorem update_handler_crashes_on_missing_id_witness :
    update_user_handler dbEmpty 0 7 nu1 = .panic "user.rs:135: unwrap on Err" :=
  update_handler_crashes_on_missing_id dbEmpty 0 7 nu1 rfl

/-- C7: `delete_user` returns `Ok` with the count of matching rows, never an
error, and `Ok 0` when no row matches. -/
theorem delete_user_count_spec (db : DB) (user_id : Int) :
    (delete_user db user_id).1 = .ok (db.rows.countP (fun r => r.id == user_id)) ∧
    (∀ e, (delete_user db user_id).1 ≠ .error e) ∧
    ((∀ r ∈ db.rows, r.id ≠ user_id) → (delete_user db user_id).1 = .ok 0) := by
  refine ⟨rfl, fun e h => by simp [delete_user] at h, fun hall => ?_⟩
  have hz : db.rows.countP (fun r => r.id == user_id) = 0 := by
    rw [List.countP_eq_zero]
    intro a ha hbe
    exact hall a ha (eq_of_beq hbe)
  simp [delete_user, hz]

/-- Witness for C7: deleting id 5 from the empty table yields `Ok 0`. -/
theorem delete_user_count_spec_witness :
    (delete_user dbEmpty 5).1 = .ok 0 :=
  (delete_user_count_spec dbEmpty 5).2.2 (by decide)

/-- C8: `create_user` and `update_user` panic when `password_hash` is absent;
when it is supplied, no panic is reachable. -/
theorem create_update_fatal_on_missing_password
    (db : DB) (salt : Nat) (nu : NewUserObject) (u : UserObject) :
    (nu.password_hash = none →
      create_user db salt nu = .panic "user_repository.rs:25: unwrap on None") ∧
    (u.password_hash = none →
      update_user db salt u = .panic "user_repository.rs:91: unwrap on None") ∧
    (∀ p, nu.password_hash = some p → ∀ m, create_user db salt nu ≠ .panic m) ∧
    (∀ p, u.password_hash = some p → ∀ m, update_user db salt u ≠ .panic m) := by
  refine ⟨fun h => by simp [create_user, h], fun h => by simp [update_user, h],
    ?_, ?_⟩
  · intro p hp m h
    simp only [create_user, hp] at h
    exact Outcome.noConfusion h
  · intro p hp m h
    simp only [update_user, hp] at h
    split at h
    · exact Outcome.noConfusion h
    · exact Outcome.noConfusion h

/-- Witness for C8: creating with no password panics at the unwrap site. -/
theorem create_update_fatal_on_missing_password_witness :
    create_user dbEmpty 0 nuNoPwd = .panic "user_repository.rs:25: unwrap on None" ∧
    update_user db1 0 rowNoPwd = .panic "user_repository.rs:91: unwrap on None" :=
  ⟨(create_update_fatal_on_missing_password dbEmpty 0 nuNoPwd rowNoPwd).1 rfl,
   (create_update_fatal_on_missing_password db1 0 nuNoPwd rowNoPwd).2.1 rfl⟩

/-- C6: `update_user` re-hashes the supplied `password_hash` unconditionally
and overwrites all editable columns of the rows keyed by `id`, returning the
updated record; when no row has that id it returns `NotFound` and leaves the
table unchanged. -/
theorem update_user_overwrites_and_rehashes
    (db : DB) (salt : Nat) (u : UserObject) (p : String)
    (hp : u.password_hash = some p) :
    ((∃ r ∈ db.rows, r.id = u.id) →
      update_user db salt u =
        .ok (.ok { id := u.id, pseudo := u.pseudo, email := u.email,
                   password_hash := some (bcryptHash salt p), role := u.role },
             { rows := db.rows.map (overwriteRow u (bcryptHash salt p)),
               nextId := db.nextId })) ∧
    ((∀ r ∈ db.rows, r.id ≠ u.id) →
      update_user db salt u = .ok (.error .notFound, db)) := by
  constructor
  · rintro ⟨r, hr, hid⟩
    have hany : db.rows.any (fun r => r.id == u.id) = true :=
      List.any_eq_true.mpr ⟨r, hr, beq_iff_eq.mpr hid⟩
    simp [update_user, hp, hany]
  · intro hall
    have hany : db.rows.any (fun r => r.id == u.id) = false := by
      cases hb : db.rows.any (fun r => r.id == u.id) with
      | false => rfl
      | true =>
        obtain ⟨r, hr, hbe⟩ := List.any_eq_true.mp hb
        exact absurd (eq_of_beq hbe) (hall r hr)
    simp [update_user, hp, hany]

/-- Witness for C6: updating `row1` with a fresh plaintext stores its hash and
overwrites the other columns. -/
theorem update_user_overwrites_and_rehashes_witness :
    update_user db1 0 uUpd =
      .ok (.ok { id := 1, pseudo := some "bob2", email := some "bob2@example.com",
                 password_hash := some (bcryptHash 0 "newpw"), role := some "admin" },
           { rows := [{ id := 1, pseudo := some "bob2", email := some "bob2@example.com",
                        password_hash := some (bcryptHash 0 "newpw"),
                        role := some "admin" }],
             nextId := 2 }) :=
  (update_user_overwrites_and_rehashes db1 0 uUpd "newpw" rfl).1
    ⟨row1, by decide, by decide⟩

/-- C3: an existing email with a wrong password and an unknown email produce
the same `NotFound` error from `login`; the two failures are
indistinguishable. -/
theorem login_wrong_password_and_unknown_email_same_error
    (enc : Claims → String → Except Unit String) (env : String → Option String)
    (sk : String) (db : DB) (u : UserObject) (s : Nat)
    (goodEmail badEmail attempt p other : String)
    (henv : env jwtSecretName = some sk)
    (hfind : db.rows.find? (fun r => r.email == some goodEmail) = some u)
    (hpwd : u.password_hash = some (bcryptHash s p))
    (hwrong : attempt ≠ p)
    (hnone : db.rows.find? (fun r => r.email == some badEmail) = none) :
    login enc env db goodEmail attempt = .ok (.error .notFound) ∧
    login enc env db badEmail other = .ok (.error .notFound) ∧
    login enc env db goodEmail attempt = login enc env db badEmail other := by
  have h1 : login enc env db goodEmail attempt = .ok (.error .notFound) := by
    simp [login, henv, hfind, hpwd, bcryptVerify_wrong hwrong]
  have h2 : login enc env db badEmail other = .ok (.error .notFound) := by
    simp [login, henv, hnone]
  exact ⟨h1, h2, h1.trans h2.symm⟩

/-- Witness for C3: wrong password for `bob@example.com` and unknown
`nobody@example.com` both yield the `NotFound` error. -/
theorem login_wrong_password_and_unknown_email_same_error_witness :
    login encodeModel envBroken db1 "bob@example.com" "wrong" =
      .ok (.error .notFound) ∧
    login encodeModel envBroken db1 "nobody@example.com" "whatever" =
      .ok (.error .notFound) ∧
    login encodeModel envBroken db1 "bob@example.com" "wrong" =
      login encodeModel envBroken db1 "nobody@example.com" "whatever" :=
  login_wrong_password_and_unknown_email_same_error encodeModel envBroken
    "topsecret" db1 row1 0 "bob@example.com" "nobody@example.com" "wrong"
    "hunter2" "whatever" rfl rfl rfl (by decide) rfl

/-- C4: on successful verification, `login` signs claims whose subject is the
stored user's email and whose expiry is the constant 10000000000, returning the
encoder's token; when the encoder fails, `login` returns the generic `NotFound`
error rather than a distinct kind. -/
theorem login_success_token_and_signing_failure
    (encOk encBad : Claims → String → Except Unit String)
    (env : String → Option String) (sk tok : String) (db : DB) (u : UserObject)
    (s : Nat) (e p : String)
    (henv : env jwtSecretName = some sk)
    (hfind : db.rows.find? (fun r => r.email == some e) = some u)
    (hpwd : u.password_hash = some (bcryptHash s p))
    (hok : encOk { sub := e, exp := 10000000000 } sk = .ok tok)
    (hbad : encBad { sub := e, exp := 10000000000 } sk = .error ()) :
    login encOk env db e p = .ok (.ok tok) ∧
    login encBad env db e p = .ok (.error .notFound) := by
  have hmail : u.email = some e := by
    have hb := List.find?_some hfind
    exact eq_of_beq hb
  constructor
  · simp [login, henv, hfind, hpwd, bcryptVerify_complete, hmail, hok]
  · simp [login, henv, hfind, hpwd, bcryptVerify_complete, hmail, hbad]

/-- Witness for C4: a successful login of `bob@example.com` issues the model
token for subject `bob@example.com`, and a failing encoder maps to `NotFound`. -/
theorem login_success_token_and_signing_failure_witness :
    login encodeModel envBroken db1 "bob@example.com" "hunter2" =
      .ok (.ok "jwt.bob@example.com.topsecret") ∧
    login encFail envBroken db1 "bob@example.com" "hunter2" =
      .ok (.error .notFound) :=
  login_success_token_and_signing_failure encodeModel encFail envBroken
    "topsecret" "jwt.bob@example.com.topsecret" db1 row1 0 "bob@example.com"
    "hunter2" rfl rfl rfl rfl rfl

/-- C9 counterexample: not every handler performs one repository call and maps
`Err` to a 404/500 response — `update_user_handler` on a missing id makes its
first repository call fail and then panics instead of producing any response. -/
theorem handler_uniform_mapping_fails_for_update :
    update_user_handler dbEmpty 0 9 nuNoPwd = .panic "user.rs:135: unwrap on Err" :=
  rfl

/-- C9 amended: each of the lookup, create, list and delete handlers performs
exactly one repository call and maps `Ok` to 200 with a JSON body; the lookup
handler maps `Err` to 404 and the others map `Err` to 500 (create shown on its
in-memory always-`Ok` path, which needs a supplied password). -/
theorem crud_handlers_single_call_status_map
    (db : DB) (salt : Nat) (user_id : Int) (nu : NewUserObject) (p : String)
    (u : UserObject) (hp : nu.password_hash = some p) :
    (get_user_by_id db user_id = .ok u →
      get_user_handler db user_id =
        .ok ({ status := 200, body := .user u }, db, [.getById])) ∧
    (get_user_by_id db user_id = .error .notFound →
      get_user_handler db user_id =
        .ok ({ status := 404, body := .msg "User not found!" }, db, [.getById])) ∧
    (create_user_handler db salt nu =
      .ok ({ status := 200,
             body := .user { id := db.nextId, pseudo := nu.pseudo, email := nu.email,
                             password_hash := some (bcryptHash salt p),
                             role := nu.role } },
           { rows := db.rows ++
               [{ id := db.nextId, pseudo := nu.pseudo, email := nu.email,
                  password_hash := some (bcryptHash salt p), role := nu.role }],
             nextId := db.nextId + 1 }, [.create])) ∧
    (list_users_handler db =
      .ok ({ status := 200, body := .users db.rows }, db, [.getAll])) ∧
    (delete_user_handler db user_id =
      .ok ({ status := 200, body := .msg "User deleted!" },
           { rows := db.rows.filter (fun r => !(r.id == user_id)),
             nextId := db.nextId }, [.delete])) := by
  refine ⟨fun h => by simp [get_user_handler, h], fun h => by simp [get_user_handler, h],
    ?_, rfl, rfl⟩
  simp [create_user_handler, create_user, hp]

/-- Witness for the amended C9: concrete 404 lookup, creation, listing and
deletion, each with a single-call trace and the mapped status. -/
theorem crud_handlers_single_call_status_map_witness :
    get_user_handler dbEmpty 3 =
      .ok ({ status := 404, body := .msg "User not found!" }, dbEmpty, [.getById]) ∧
    create_user_handler dbEmpty 0 nu1 =
      .ok ({ status := 200,
             body := .user { id := 1, pseudo := some "alice", email := some "a@x.com",
                             password_hash := some (bcryptHash 0 "secret123"),
                             role := some "user" } },
           { rows := [{ id := 1, pseudo := some "alice", email := some "a@x.com",
                        password_hash := some (bcryptHash 0 "secret123"),
                        role := some "user" }],
             nextId := 2 }, [.create]) ∧
    list_users_handler db1 =
      .ok ({ status := 200, body := .users [row1] }, db1, [.getAll]) ∧
    delete_user_handler db1 1 =
      .ok ({ status := 200, body := .msg "User deleted!" },
           { rows := [], nextId := 2 }, [.delete]) :=
  ⟨(crud_handlers_single_call_status_map dbEmpty 0 3 nu1 "secret123" row1 rfl).2.1 rfl,
   (crud_handlers_single_call_status_map dbEmpty 0 3 nu1 "secret123" row1 rfl).2.2.1,
   (crud_handlers_single_call_status_map db1 0 1 nu1 "secret123" row1 rfl).2.2.2.1,
   (crud_handlers_single_call_status_map db1 0 1 nu1 "secret123" row1 rfl).2.2.2.2⟩

/-- C10 counterexample: against a table whose user row has a NULL email (and a
stored hash of the supplied password), `login` returns the structured
`NotFound` error — it does not panic at the email unwrap, since the email
filter never matches a row with a NULL email column. -/
theorem login_null_email_returns_error_not_panic :
    login encodeModel envBroken dbNullEmail "carol@example.com" "pw" =
      .ok (.error .notFound) := rfl

/-- The `unwrap` of the matched user's email in `login` can never panic,
because the email filter only matches rows whose email column equals
`Some(p_email)`; the claimed email-`None` crash site is unreachable. -/
lemma login_email_unwrap_never_fires :
    ∀ (enc : Claims → String → Except Unit String) (env : String → Option String)
      (db : DB) (e p : String),
      login enc env db e p ≠ .panic "user_repository.rs:134: unwrap on None" := by
  intro enc env db e p h
  unfold login at h
  split at h
  · exact absurd (Outcome.panic.inj h) (by decide)
  · split at h
    · exact Outcome.noConfusion h
    · rename_i u hfind
      split at h
      · exact absurd (Outcome.panic.inj h) (by decide)
      · split at h
        · split at h
          · rename_i hmail
            have hb := List.find?_some hfind
            have : u.email = some e := eq_of_beq hb
            rw [hmail] at this
            exact Option.noConfusion this
          · split at h
            · exact Outcome.noConfusion h
            · exact Outcome.noConfusion h
        · exact Outcome.noConfusion h

/-- C10 amended: `login` panics (no structured error) when the matched user row
has `password_hash = None`, at the unwrap before verification. -/
theorem login_fatal_on_null_password_hash
    (enc : Claims → String → Except Unit String) (env : String → Option String)
    (sk : String) (db : DB) (u : UserObject) (e p : String)
    (henv : env jwtSecretName = some sk)
    (hfind : db.rows.find? (fun r => r.email == some e) = some u)
    (hpwd : u.password_hash = none) :
    login enc env db e p = .panic "user_repository.rs:130: unwrap on None" := by
  simp [login, henv, hfind, hpwd]

/-- Witness for the amended C10: logging in as the stored user with a NULL
password hash panics. -/
theorem login_fatal_on_null_password_hash_witness :
    login encodeModel envBroken dbNoPwd "eve@example.com" "x" =
      .panic "user_repository.rs:130: unwrap on None" :=
  login_fatal_on_null_password_hash encodeModel envBroken "topsecret" dbNoPwd
    rowNoPwd "eve@example.com" "x" rfl rfl rfl
